import Mathlib

/-!
Shallow embedding of `src/server.py` (tokenpulse).

The program is a FastAPI service with one data endpoint, `GET /data/{chain}`
(`get_data`), backed by

  * `is_cache_valid` / a module-level `cache` dict with a fixed 6-hour TTL,
  * `fetch_token_activity_data` (SQL ranking query + per-token enrichment loop),
  * `get_token_info` / `is_erc721` (per-token RPC metadata resolution).

Remote effects are embedded as explicit oracles:

  * `RpcEnv` is the outcome of the chain-selected JSON-RPC world for one
    token resolution: each remote call is an `Option`/function field where
    `none` means the call raises.  The `CHAIN_RPC_URLS.get(chain, ethereum)`
    endpoint selection is absorbed into the oracle (which env a given chain
    and address sees), since all theorems quantify over every `RpcEnv`.
  * `DbEnv` is the outcome of the postgres world: `connect` mirrors
    `get_connection()` (which raises on failure and is called OUTSIDE the
    `try` block of `fetch_token_activity_data`), `queryOk`/`tables` mirror
    `cur.execute` (which is inside the `try` and whose failure, including a
    missing per-chain table, is converted to an empty result list).
  * The SQL text of the ranking query is embedded as a list pipeline over
    decoded event rows (`token_activity`, `rolling_7_day`, `comparison`,
    and the final select/where/order/limit), mirroring the CTEs by name.

Machine integers do not overflow here (Python ints and SQL numerics are
unbounded), so counts are `Nat` and timestamps are `Int` seconds.
-/

namespace TokenPulse

/-! ### RPC oracle and token metadata (`is_erc721`, `get_token_info`) -/

/-- Outcome of the remote RPC world for one token resolution.  A `none`
(or `none`-returning function value) means the corresponding remote call
raises an exception in the Python source. -/
structure RpcEnv where
  /-- `web3.eth.block_number` (the connection liveness probe). -/
  block_number : Option Nat
  /-- `contract.functions.supportsInterface(id).call()`, keyed by the
  interface identifier argument. -/
  supports_interface : Nat → Option Bool
  /-- `contract.functions.name().call()`. -/
  name_call : Option String
  /-- `contract.functions.symbol().call()`. -/
  symbol_call : Option String
  /-- `contract.functions.decimals().call()`. -/
  decimals_call : Option Nat

/-- Result tuple of `get_token_info`: `(name, symbol, decimals, token_type)`. -/
structure TokenInfo where
  name : String
  symbol : String
  decimals : Option Nat
  token_type : String
deriving DecidableEq

/-- `Web3.to_bytes(hexstr="0x80ac58cd")`, the ERC-721 interface id. -/
def erc721InterfaceId : Nat := 0x80ac58cd

/-- `is_erc721(web3, token_address)`: probe `supportsInterface(0x80ac58cd)`;
any exception inside the `try` returns `False`. -/
def is_erc721 (env : RpcEnv) : Bool :=
  match env.supports_interface erc721InterfaceId with
  | some b => b
  | none => false

/-- The body of `get_token_info`'s `try` block: `none` iff any remote call in
it raises (the `is_erc721` probe itself never raises). -/
def get_token_info_attempt (env : RpcEnv) : Option TokenInfo := do
  let _ ← env.block_number
  if is_erc721 env then
    let n ← env.name_call
    let s ← env.symbol_call
    pure ⟨n, s, none, "ERC-721"⟩
  else
    let n ← env.name_call
    let s ← env.symbol_call
    let d ← env.decimals_call
    pure ⟨n, s, some d, "ERC-20"⟩

/-- The `except` fallback of `get_token_info`. -/
def unknownTokenInfo : TokenInfo := ⟨"Unknown", "Unknown", none, "Unknown"⟩

/-- `get_token_info(chain, token_address)`: the `try` body, with every
raising execution collapsed to the `Unknown` fallback. -/
def get_token_info (env : RpcEnv) : TokenInfo :=
  (get_token_info_attempt env).getD unknownTokenInfo

/-- `get_token_info` returns one of exactly three shapes: the fallback
attempt failure, a complete ERC-721 result, or a complete ERC-20 result. -/
theorem get_token_info_attempt_cases (env : RpcEnv) :
    get_token_info_attempt env = none ∨
    (∃ n s, get_token_info_attempt env = some ⟨n, s, none, "ERC-721"⟩) ∨
    (∃ n s d, get_token_info_attempt env = some ⟨n, s, some d, "ERC-20"⟩) := by
  unfold get_token_info_attempt
  rcases hb : env.block_number with _ | bn
  · left; rfl
  · cases h721 : is_erc721 env
    · rcases hn : env.name_call with _ | n
      · left; simp [hn, h721]
      · rcases hs : env.symbol_call with _ | s
        · left; simp [hn, hs, h721]
        · rcases hd : env.decimals_call with _ | d
          · left; simp [hn, hs, hd, h721]
          · right; right; exact ⟨n, s, d, by simp [hn, hs, hd, h721]⟩
    · rcases hn : env.name_call with _ | n
      · left; simp [hn, h721]
      · rcases hs : env.symbol_call with _ | s
        · left; simp [hn, hs, h721]
        · right; left; exact ⟨n, s, by simp [hn, hs, h721]⟩

theorem get_token_info_eq_attempt (env : RpcEnv) :
    get_token_info env = (get_token_info_attempt env).getD unknownTokenInfo := rfl

/-- Decimals presence coincides with the `'ERC-20'` tag on every path. -/
theorem decimals_iff_fungible (env : RpcEnv) :
    (get_token_info env).decimals.isSome ↔
      (get_token_info env).token_type = "ERC-20" := by
  rcases get_token_info_attempt_cases env with h | ⟨n, s, h⟩ | ⟨n, s, d, h⟩ <;>
    simp [get_token_info, h, unknownTokenInfo]

/-! ### The ranking query of `fetch_token_activity_data`

The SQL query (lines 188-247 of `src/server.py`) is embedded as a list
pipeline over decoded event rows, one definition per CTE.  Grouping
(`group by`, `partition by`) is rendered as `dedup` over the grouping key
followed by a filter per key; SQL `NULL` is `Option.none`; aggregate `max`
over an empty group is `none` (`List.max?`); `ORDER BY ... DESC` with
unspecified tie order is rendered as a concrete stable sort. -/

/-- One decoded EVM log row of the per-chain event table. -/
structure Event where
  address : String
  input_0_value_address : String
  input_2_value_uint256 : Nat
  signature : String
  timestamp : Int
deriving DecidableEq

def TRANSFER_SIGNATURE : String := "Transfer(address,address,uint256)"

def SECONDS_PER_DAY : Int := 86400

/-- `date_trunc('day', ts)` as a day index. -/
def dayOf (ts : Int) : Int := Int.ediv ts SECONDS_PER_DAY

/-- One row of the `token_activity` CTE. -/
structure DayGroup where
  token_address : String
  stringDay : Int
  unique_addresses : Nat
  total_volume : Nat
  total_transactions : Nat
deriving DecidableEq

/-- `token_activity`: restrict to `Transfer` events of the last 14 days,
group by (token, day), aggregate, and keep groups with more than 100
distinct sender addresses (the `having` clause). -/
def token_activity (events : List Event) (now : Int) : List DayGroup :=
  let filtered := events.filter (fun e =>
    e.signature == TRANSFER_SIGNATURE &&
      decide (now - 14 * SECONDS_PER_DAY ≤ e.timestamp))
  let keys := (filtered.map (fun e => (e.address, dayOf e.timestamp))).dedup
  (keys.map (fun k =>
    let grp := filtered.filter (fun e =>
      e.address == k.1 && dayOf e.timestamp == k.2)
    { token_address := k.1
      stringDay := k.2
      unique_addresses := (grp.map (·.input_0_value_address)).dedup.length
      total_volume := (grp.map (·.input_2_value_uint256)).sum
      total_transactions := grp.length })).filter
    (fun g => decide (100 < g.unique_addresses))

/-- One row of the `rolling_7_day` CTE. -/
structure RollingRow where
  token_address : String
  stringDay : Int
  rolling_unique_addresses : Nat
  rolling_total_volume : Nat
  rolling_total_transactions : Nat
deriving DecidableEq

instance : DecidableRel (fun a b : DayGroup => a.stringDay ≤ b.stringDay) :=
  fun a b => Int.decLe a.stringDay b.stringDay

/-- `rolling_7_day`: per token, order the day rows and take the window sum
over `rows between 13 preceding and current row` for each metric. -/
def rolling_7_day (groups : List DayGroup) : List RollingRow :=
  let tokens := (groups.map (·.token_address)).dedup
  (tokens.map (fun t =>
    let sorted := List.insertionSort
      (fun a b : DayGroup => a.stringDay ≤ b.stringDay)
      (groups.filter (fun g => g.token_address == t))
    sorted.enum.map (fun p =>
      let window := (sorted.take (p.1 + 1)).drop (p.1 - 13)
      { token_address := p.2.token_address
        stringDay := p.2.stringDay
        rolling_unique_addresses := (window.map (·.unique_addresses)).sum
        rolling_total_volume := (window.map (·.total_volume)).sum
        rolling_total_transactions :=
          (window.map (·.total_transactions)).sum }))).flatten

/-- `stringDay between date_trunc('day', now() - interval '7 days') and
date_trunc('day', now())`. -/
def inCurrentWeek (now day : Int) : Bool :=
  decide (dayOf (now - 7 * SECONDS_PER_DAY) ≤ day) && decide (day ≤ dayOf now)

/-- `stringDay between date_trunc('day', now() - interval '14 days') and
date_trunc('day', now() - interval '7 days')`. -/
def inPreviousWeek (now day : Int) : Bool :=
  decide (dayOf (now - 14 * SECONDS_PER_DAY) ≤ day) &&
    decide (day ≤ dayOf (now - 7 * SECONDS_PER_DAY))

/-- One row of the `comparison` CTE; the `max(case when ... end)` columns
are `NULL` (`none`) when no row falls in the window. -/
structure ComparisonRow where
  token_address : String
  current_week_unique_addresses : Option Nat
  previous_week_unique_addresses : Option Nat
  current_week_total_volume : Option Nat
  previous_week_total_volume : Option Nat
  current_week_total_transactions : Option Nat
  previous_week_total_transactions : Option Nat
deriving DecidableEq

/-- `comparison`: group the rolling rows by token and take, per metric, the
max rolling value anchored in the current-week and previous-week windows. -/
def comparison (rows : List RollingRow) (now : Int) : List ComparisonRow :=
  let tokens := (rows.map (·.token_address)).dedup
  tokens.map (fun t =>
    let part := rows.filter (fun r => r.token_address == t)
    let cur := part.filter (fun r => inCurrentWeek now r.stringDay)
    let prev := part.filter (fun r => inPreviousWeek now r.stringDay)
    { token_address := t
      current_week_unique_addresses :=
        (cur.map (·.rolling_unique_addresses)).max?
      previous_week_unique_addresses :=
        (prev.map (·.rolling_unique_addresses)).max?
      current_week_total_volume := (cur.map (·.rolling_total_volume)).max?
      previous_week_total_volume := (prev.map (·.rolling_total_volume)).max?
      current_week_total_transactions :=
        (cur.map (·.rolling_total_transactions)).max?
      previous_week_total_transactions :=
        (prev.map (·.rolling_total_transactions)).max? })

/-- One row of the final `select`, i.e. one fetched SQL result row. -/
structure ActivityRow where
  token_address : String
  unique_addresses_growth : Int
  total_transaction_growth : Int
  current_week_unique_addresses : Option Nat
  previous_week_unique_addresses : Option Nat
  current_week_total_volume : Option Nat
  previous_week_total_volume : Option Nat
  current_week_total_transactions : Option Nat
  previous_week_total_transactions : Option Nat
deriving DecidableEq

/-- `coalesce(x, 0)` read as an integer. -/
def coalesce0 (o : Option Nat) : Int := Int.ofNat (o.getD 0)

/-- The final select list over one `comparison` row. -/
def toActivityRow (c : ComparisonRow) : ActivityRow :=
  { token_address := c.token_address
    unique_addresses_growth :=
      coalesce0 c.current_week_unique_addresses -
        coalesce0 c.previous_week_unique_addresses
    total_transaction_growth :=
      coalesce0 c.current_week_total_transactions -
        coalesce0 c.previous_week_total_transactions
    current_week_unique_addresses := c.current_week_unique_addresses
    previous_week_unique_addresses := c.previous_week_unique_addresses
    current_week_total_volume := c.current_week_total_volume
    previous_week_total_volume := c.previous_week_total_volume
    current_week_total_transactions := c.current_week_total_transactions
    previous_week_total_transactions := c.previous_week_total_transactions }

/-- `where previous_week_unique_addresses > 100` (false on SQL `NULL`). -/
def prevWeekFilter (c : ComparisonRow) : Bool :=
  match c.previous_week_unique_addresses with
  | some p => decide (100 < p)
  | none => false

/-- `order by unique_addresses_growth desc`, read on the result rows. -/
def growthDesc (a b : ActivityRow) : Prop :=
  b.unique_addresses_growth ≤ a.unique_addresses_growth

instance : DecidableRel growthDesc :=
  fun a b => Int.decLe b.unique_addresses_growth a.unique_addresses_growth

instance : IsTotal ActivityRow growthDesc :=
  ⟨fun a b => le_total b.unique_addresses_growth a.unique_addresses_growth⟩

instance : IsTrans ActivityRow growthDesc :=
  ⟨fun _ _ _ hab hbc => le_trans hbc hab⟩

/-- The full ranking query: pipeline, `where`, `order by ... desc`,
`limit 50`. -/
def rankedRows (events : List Event) (now : Int) : List ActivityRow :=
  (List.insertionSort growthDesc
    (((comparison (rolling_7_day (token_activity events now)) now).filter
        prevWeekFilter).map toActivityRow)).take 50

/-! ### The enrichment loop of `fetch_token_activity_data` (lines 268-281) -/

/-- `token['decimals'] = decimals if decimals is not None else 'N/A'`:
the value stored is either the number or the string sentinel. -/
inductive DecimalsVal where
  | num (n : Nat)
  | na
deriving DecidableEq

/-- One element of the response list: the SQL row dict after the loop has
added the `label`, `token_type` and `decimals` keys. -/
structure EnrichedToken where
  row : ActivityRow
  label : String
  token_type : String
  decimals : DecimalsVal
deriving DecidableEq

/-- One iteration of the enrichment loop, given the resolved metadata. -/
def enrichToken (row : ActivityRow) (info : TokenInfo) : EnrichedToken :=
  { row := row
    label :=
      match info.decimals with
      | some d => info.name ++ " (" ++ info.symbol ++ ") [" ++ toString d ++ "]"
      | none => info.name ++ " (" ++ info.symbol ++ ")"
    token_type := info.token_type
    decimals :=
      match info.decimals with
      | some d => DecimalsVal.num d
      | none => DecimalsVal.na }

/-- The whole `for token in results` loop; `envOf` gives each token address
its RPC oracle on the requested chain. -/
def enrichAll (envOf : String → RpcEnv) (rows : List ActivityRow) :
    List EnrichedToken :=
  rows.map (fun r => enrichToken r (get_token_info (envOf r.token_address)))

/-! ### `fetch_token_activity_data` and `get_data` -/

/-- Outcome of the postgres world for one refresh. -/
structure DbEnv where
  /-- `get_connection()`: raises (with some message) on failure.  In the
  source it is called before the `try` block. -/
  connect : Except String Unit
  /-- Whether `cur.execute`/`cur.fetchall` succeed for reasons other than
  the table lookup (connectivity during execution, malformed SQL, ...). -/
  queryOk : Bool
  /-- The event table per table name; `none` (missing table, e.g. for an
  unknown chain) makes the query execution raise. -/
  tables : String → Option (List Event)
  /-- The SQL clock `now()`. -/
  now : Int

/-- `table_name = f"evm_events_{chain}_mainnet_v1"`. -/
def table_name (chain : String) : String :=
  "evm_events_" ++ chain ++ "_mainnet_v1"

/-- `fetch_token_activity_data(chain)`.  `Except.error` models an exception
escaping to the caller: `get_connection()` failure is NOT caught (it sits
outside the `try`), while query-execution failure is caught and converted to
the empty list.  On success the fetched rows are the ranking query's result
and the enrichment loop runs over them in order. -/
def fetch_token_activity_data (db : DbEnv) (envOf : String → RpcEnv)
    (chain : String) : Except String (List EnrichedToken) :=
  match db.connect with
  | Except.error e => Except.error e
  | Except.ok _ =>
    match db.queryOk, db.tables (table_name chain) with
    | true, some events =>
      Except.ok (enrichAll envOf (rankedRows events db.now))
    | _, _ => Except.ok []

/-- One entry of the module-level `cache` dict. -/
structure CacheEntry where
  data : List EnrichedToken
  timestamp : Int
deriving DecidableEq

/-- The module-level `cache` dict, as a map from chain to entry. -/
def Cache : Type := String → Option CacheEntry

/-- `CACHE_EXPIRY_TIME = 6 * 60 * 60` seconds. -/
def CACHE_EXPIRY_TIME : Int := 6 * 60 * 60

/-- `is_cache_valid(chain)`: entry present and younger than the TTL. -/
def is_cache_valid (cache : Cache) (chain : String) (now : Int) : Bool :=
  match cache chain with
  | some e => decide (now - e.timestamp < CACHE_EXPIRY_TIME)
  | none => false

/-- `cache[chain]["data"]` (only reached under `is_cache_valid`, which
guarantees the entry is present; the `none` arm is unreachable there). -/
def cachedData (cache : Cache) (chain : String) : List EnrichedToken :=
  match cache chain with
  | some e => e.data
  | none => []

/-- `cache[chain] = {"data": d, "timestamp": time.time()}`. -/
def cacheInsert (cache : Cache) (chain : String) (d : List EnrichedToken)
    (now : Int) : Cache :=
  fun c => if c = chain then some ⟨d, now⟩ else cache c

/-- Value returned by the `get_data` handler: either the token list or the
pair `({"error": str(e)}, 500)` produced by the catch-all `except`. -/
inductive Response where
  | ok (data : List EnrichedToken)
  | err (msg : String) (status : Nat)
deriving DecidableEq

/-- `GET /data/{chain}` (`get_data`), with the module globals `cache` and
clock passed explicitly; returns the response and the new cache state. -/
def get_data (db : DbEnv) (envOf : String → RpcEnv) (cache : Cache)
    (now : Int) (chain : String) : Response × Cache :=
  if is_cache_valid cache chain now then
    (Response.ok (cachedData cache chain), cache)
  else
    match fetch_token_activity_data db envOf chain with
    | Except.ok token_data =>
      (Response.ok token_data, cacheInsert cache chain token_data now)
    | Except.error e => (Response.err e 500, cache)

/-! ### Concrete instances used by witnesses and counterexamples -/

/-- An RPC world where every remote call raises. -/
def failEnv : RpcEnv :=
  { block_number := none
    supports_interface := fun _ => none
    name_call := none
    symbol_call := none
    decimals_call := none }

def failEnvOf : String → RpcEnv := fun _ => failEnv

/-- An RPC world where the liveness and metadata calls succeed but the
`supportsInterface` probe raises. -/
def probeFailEnv : RpcEnv :=
  { block_number := some 1
    supports_interface := fun _ => none
    name_call := some "Tok"
    symbol_call := some "TK"
    decimals_call := some 18 }

/-- An RPC world resolving an ERC-721 token. -/
def nftEnv : RpcEnv :=
  { block_number := some 1
    supports_interface := fun _ => some true
    name_call := some "Ape"
    symbol_call := some "APE"
    decimals_call := none }

def sampleRow : ActivityRow :=
  { token_address := "0xabc"
    unique_addresses_growth := 0
    total_transaction_growth := 0
    current_week_unique_addresses := none
    previous_week_unique_addresses := none
    current_week_total_volume := none
    previous_week_total_volume := none
    current_week_total_transactions := none
    previous_week_total_transactions := none }

def emptyCache : Cache := fun _ => none

/-- Postgres world: connection succeeds, requested table is missing. -/
def dbNoTable : DbEnv :=
  { connect := Except.ok ()
    queryOk := true
    tables := fun _ => none
    now := 0 }

/-- Postgres world: connection succeeds, query execution fails. -/
def dbQueryFail : DbEnv :=
  { connect := Except.ok ()
    queryOk := false
    tables := fun _ => some []
    now := 0 }

/-- Postgres world: opening the connection raises. -/
def dbConnFail : DbEnv :=
  { connect := Except.error "connection refused"
    queryOk := true
    tables := fun _ => some []
    now := 0 }

/-- Bool reading of "previousWeekUniqueAddresses > 100" on a result row. -/
def rowPassesPrevFilter (r : ActivityRow) : Bool :=
  match r.previous_week_unique_addresses with
  | some p => decide (100 < p)
  | none => false

/-! ### Claim theorems -/

/-- C3: `get_token_info` (the metadata resolver) never raises to its caller:
if its `try` body raises anywhere — in particular when the liveness probe
(`block_number`), the `name()`, the `symbol()`, or (on the ERC-20 path) the
`decimals()` call raises — the whole resolution collapses to the fallback
`("Unknown", "Unknown", None, 'Unknown')`, and otherwise the complete
successful result is returned, so no partial metadata ever escapes. -/
theorem resolve_collapses_to_fallback (env : RpcEnv) :
    (get_token_info_attempt env = none →
      get_token_info env = unknownTokenInfo) ∧
    (∀ i, get_token_info_attempt env = some i → get_token_info env = i) ∧
    (env.block_number = none → get_token_info env = unknownTokenInfo) ∧
    (env.name_call = none → get_token_info env = unknownTokenInfo) ∧
    (env.symbol_call = none → get_token_info env = unknownTokenInfo) ∧
    (is_erc721 env = false → env.decimals_call = none →
      get_token_info env = unknownTokenInfo) := by
  refine ⟨?_, ?_, ?_, ?_, ?_, ?_⟩
  · intro h; simp [get_token_info, h]
  · intro i h; simp [get_token_info, h]
  · intro h; simp [get_token_info, get_token_info_attempt, h]
  · intro h
    rcases hb : env.block_number with _ | bn
    · simp [get_token_info, get_token_info_attempt, hb]
    · cases h721 : is_erc721 env <;>
        simp [get_token_info, get_token_info_attempt, hb, h, h721]
  · intro h
    rcases hb : env.block_number with _ | bn
    · simp [get_token_info, get_token_info_attempt, hb]
    · cases h721 : is_erc721 env <;> rcases hn : env.name_call with _ | n <;>
        simp [get_token_info, get_token_info_attempt, hb, hn, h, h721]
  · intro h721 hd
    rcases hb : env.block_number with _ | bn
    · simp [get_token_info, get_token_info_attempt, hb]
    · rcases hn : env.name_call with _ | n <;>
        rcases hs : env.symbol_call with _ | s <;>
        simp [get_token_info, get_token_info_attempt, hb, hn, hs, hd, h721]

/-- Witness for C3 at a concrete RPC world where every call raises. -/
theorem resolve_collapses_to_fallback_witness :
    get_token_info failEnv = unknownTokenInfo :=
  (resolve_collapses_to_fallback failEnv).1 rfl

/-- C8: the token-standard probe queries `supportsInterface` with the
ERC-721 interface identifier `0x80ac58cd`; if the probe raises, `is_erc721`
returns `false` rather than erroring, and (when the other calls succeed)
`get_token_info` takes the ERC-20 path. -/
theorem probe_failure_is_not_erc721 (env : RpcEnv)
    (h : env.supports_interface erc721InterfaceId = none) :
    erc721InterfaceId = 0x80ac58cd ∧
    is_erc721 env = false ∧
    (∀ bn n s d, env.block_number = some bn → env.name_call = some n →
      env.symbol_call = some s → env.decimals_call = some d →
      get_token_info env = ⟨n, s, some d, "ERC-20"⟩) := by
  have h721 : is_erc721 env = false := by simp [is_erc721, h]
  refine ⟨rfl, h721, ?_⟩
  intro bn n s d hb hn hs hd
  simp [get_token_info, get_token_info_attempt, hb, hn, hs, hd, h721]

/-- Witness for C8: a probe failure with otherwise healthy calls yields the
ERC-20 result. -/
theorem probe_failure_is_not_erc721_witness :
    is_erc721 probeFailEnv = false ∧
    get_token_info probeFailEnv = ⟨"Tok", "TK", some 18, "ERC-20"⟩ :=
  ⟨(probe_failure_is_not_erc721 probeFailEnv rfl).2.1,
    (probe_failure_is_not_erc721 probeFailEnv rfl).2.2 1 "Tok" "TK" 18
      rfl rfl rfl rfl⟩

/-- C10: in every `get_token_info` result, decimals presence is the
discriminator of the standard: decimals is present iff the standard tag is
`'ERC-20'`, so the ERC-721 path and the Unknown fallback (whose tags are not
`'ERC-20'`) never carry decimals. -/
theorem resolve_decimals_discriminates_standard (env : RpcEnv) :
    ((get_token_info env).decimals.isSome ↔
      (get_token_info env).token_type = "ERC-20") ∧
    ((get_token_info env).token_type = "ERC-721" ∨
      (get_token_info env).token_type = "Unknown" →
      (get_token_info env).decimals = none) := by
  refine ⟨decimals_iff_fungible env, ?_⟩
  intro h
  rcases hd : (get_token_info env).decimals with _ | d
  · rfl
  · have : (get_token_info env).token_type = "ERC-20" :=
      (decimals_iff_fungible env).mp (by simp [hd])
    rcases h with h | h <;> rw [h] at this <;> exact absurd this (by decide)

/-- Witness for C10 at a concrete ERC-721 resolution. -/
theorem resolve_decimals_discriminates_standard_witness :
    (get_token_info nftEnv).decimals = none :=
  (resolve_decimals_discriminates_standard nftEnv).2 (Or.inl rfl)

/-- C2 counterexample: when resolution fails entirely, decimals is absent
but the stored `token_type` is `'Unknown'`, not `'ERC-721'` — refuting
"tokenType equals ERC-721 whenever decimals is absent". -/
theorem enrich_merge_counterexample :
    (enrichToken sampleRow (get_token_info failEnv)).decimals =
      DecimalsVal.na ∧
    (enrichToken sampleRow (get_token_info failEnv)).token_type ≠
      "ERC-721" := by
  refine ⟨rfl, ?_⟩
  decide

/-- C2 amended: `label` is `"{name} ({symbol})"` without decimals and
`"{name} ({symbol}) [{decimals}]"` with them; the `decimals` field is the
number or the `'N/A'` sentinel; `token_type` is `'ERC-20'` whenever decimals
is present, and when decimals is absent it is `'ERC-721'` or — on the
failure fallback — `'Unknown'`. -/
theorem enrich_merge_rules_amended (env : RpcEnv) (row : ActivityRow) :
    ((get_token_info env).decimals = none →
      (enrichToken row (get_token_info env)).label =
        (get_token_info env).name ++ " (" ++
          (get_token_info env).symbol ++ ")" ∧
      (enrichToken row (get_token_info env)).decimals = DecimalsVal.na ∧
      ((enrichToken row (get_token_info env)).token_type = "ERC-721" ∨
        (enrichToken row (get_token_info env)).token_type = "Unknown")) ∧
    (∀ d, (get_token_info env).decimals = some d →
      (enrichToken row (get_token_info env)).label =
        (get_token_info env).name ++ " (" ++ (get_token_info env).symbol ++
          ") [" ++ toString d ++ "]" ∧
      (enrichToken row (get_token_info env)).decimals = DecimalsVal.num d ∧
      (enrichToken row (get_token_info env)).token_type = "ERC-20") := by
  rcases get_token_info_attempt_cases env with h | ⟨n, s, h⟩ | ⟨n, s, d0, h⟩ <;>
    constructor <;>
    simp [get_token_info, h, unknownTokenInfo, enrichToken]

/-- Witness for C2 (amended) at a concrete ERC-721 resolution. -/
theorem enrich_merge_rules_amended_witness :
    (enrichToken sampleRow (get_token_info nftEnv)).label =
      (get_token_info nftEnv).name ++ " (" ++
        (get_token_info nftEnv).symbol ++ ")" ∧
    (enrichToken sampleRow (get_token_info nftEnv)).decimals =
      DecimalsVal.na ∧
    ((enrichToken sampleRow (get_token_info nftEnv)).token_type =
      "ERC-721" ∨
      (enrichToken sampleRow (get_token_info nftEnv)).token_type =
        "Unknown") :=
  (enrich_merge_rules_amended nftEnv sampleRow).1 rfl

/-- C6: enrichment is positional and total — the output has exactly as many
rows as the ranked input, the i-th output row is the i-th ranked row merged
with its own resolution, and a row whose resolution fell back to Unknown is
still emitted at its position rather than dropped. -/
theorem enrichment_positional_total (envOf : String → RpcEnv)
    (rows : List ActivityRow) :
    (enrichAll envOf rows).length = rows.length ∧
    (∀ i : Nat, (enrichAll envOf rows)[i]? =
      (rows[i]?).map
        (fun r => enrichToken r (get_token_info (envOf r.token_address)))) ∧
    (∀ (i : Nat) (r : ActivityRow), rows[i]? = some r →
      get_token_info (envOf r.token_address) = unknownTokenInfo →
      (enrichAll envOf rows)[i]? =
        some (enrichToken r unknownTokenInfo)) := by
  refine ⟨List.length_map _ _, ?_, ?_⟩
  · intro i; simp [enrichAll]
  · intro i r hi hu; simp [enrichAll, hi, hu]

/-- Witness for C6: a single-row list whose resolution fails entirely still
produces its (fallback-merged) output row at position 0. -/
theorem enrichment_positional_total_witness :
    (enrichAll failEnvOf [sampleRow])[0]? =
      some (enrichToken sampleRow unknownTokenInfo) :=
  (enrichment_positional_total failEnvOf [sampleRow]).2.2 0 sampleRow rfl rfl

/-- C5: for every event log and clock, the ranked output is sorted in
descending order of `unique_addresses_growth`, contains at most 50 rows, and
every row has `previous_week_unique_addresses` present and above 100. -/
theorem rank_sorted_capped_filtered (events : List Event) (now : Int) :
    List.Sorted growthDesc (rankedRows events now) ∧
    (rankedRows events now).length ≤ 50 ∧
    (rankedRows events now).all rowPassesPrevFilter = true := by
  refine ⟨?_, ?_, ?_⟩
  · exact List.Pairwise.sublist (List.take_sublist _ _)
      (List.sorted_insertionSort growthDesc _)
  · exact List.length_take_le _ _
  · rw [List.all_eq_true]
    intro x hx
    have hx1 := List.mem_of_mem_take hx
    have hx2 := (List.perm_insertionSort growthDesc
      (((comparison (rolling_7_day (token_activity events now)) now).filter
          prevWeekFilter).map toActivityRow)).subset hx1
    rcases List.mem_map.mp hx2 with ⟨c, hc, rfl⟩
    exact (List.mem_filter.mp hc).2

/-- C1: an entry is valid iff it is present and younger than the fixed
six-hour TTL; on a valid entry `get_data` returns the stored payload and
leaves the cache (and the outside world) untouched; on an invalid entry it
runs the refresh and, when the refresh returns normally, stores exactly its
result under the chain with the current time and returns it. -/
theorem cache_staleness_and_get_policy (db : DbEnv)
    (envOf : String → RpcEnv) (cache : Cache) (now : Int) (chain : String) :
    (is_cache_valid cache chain now = true ↔
      ∃ e, cache chain = some e ∧ now - e.timestamp < CACHE_EXPIRY_TIME) ∧
    (∀ e, cache chain = some e → now - e.timestamp < CACHE_EXPIRY_TIME →
      get_data db envOf cache now chain = (Response.ok e.data, cache)) ∧
    (∀ d, is_cache_valid cache chain now = false →
      fetch_token_activity_data db envOf chain = Except.ok d →
      get_data db envOf cache now chain =
        (Response.ok d, cacheInsert cache chain d now) ∧
      cacheInsert cache chain d now chain = some ⟨d, now⟩) := by
  refine ⟨?_, ?_, ?_⟩
  · rcases h : cache chain with _ | e
    · simp [is_cache_valid, h]
    · simp [is_cache_valid, h]
  · intro e he hlt
    have hv : is_cache_valid cache chain now = true := by
      simp [is_cache_valid, he, hlt]
    simp [get_data, hv, cachedData, he]
  · intro d hv hf
    constructor
    · simp [get_data, hv, hf]
    · simp [cacheInsert]

/-- Witness for C1: a miss over an empty cache (here with an unknown-table
refresh that degrades to the empty list) stores and returns the payload. -/
theorem cache_staleness_and_get_policy_witness :
    get_data dbNoTable failEnvOf emptyCache 0 "ethereum" =
      (Response.ok [], cacheInsert emptyCache "ethereum" [] 0) ∧
    cacheInsert emptyCache "ethereum" [] 0 "ethereum" = some ⟨[], 0⟩ :=
  (cache_staleness_and_get_policy dbNoTable failEnvOf emptyCache 0
    "ethereum").2.2 [] rfl rfl

/-- C4 counterexample: when opening the database connection fails, the
aggregator does NOT return an empty list — the exception propagates (the
`get_connection()` call sits outside the `try` block). -/
theorem aggregator_connect_failure_counterexample :
    fetch_token_activity_data dbConnFail failEnvOf "ethereum" =
      Except.error "connection refused" ∧
    fetch_token_activity_data dbConnFail failEnvOf "ethereum" ≠
      Except.ok [] :=
  ⟨rfl, fun h => Except.noConfusion h⟩

/-- C4 amended: a failure of the query execution (including the missing
table of an unknown chain) is absorbed and yields the empty list, but a
failure while establishing the database connection propagates to the caller
as an exception. -/
theorem aggregator_failure_policy_amended (db : DbEnv)
    (envOf : String → RpcEnv) (chain : String) :
    (∀ e, db.connect = Except.error e →
      fetch_token_activity_data db envOf chain = Except.error e) ∧
    (db.connect = Except.ok () → db.queryOk = false →
      fetch_token_activity_data db envOf chain = Except.ok []) ∧
    (db.connect = Except.ok () → db.tables (table_name chain) = none →
      fetch_token_activity_data db envOf chain = Except.ok []) := by
  refine ⟨?_, ?_, ?_⟩
  · intro e he; simp [fetch_token_activity_data, he]
  · intro hc hq; simp [fetch_token_activity_data, hc, hq]
  · intro hc ht
    cases hq : db.queryOk <;>
      simp [fetch_token_activity_data, hc, ht, hq]

/-- Witness for C4 (amended): a failing query execution yields `ok []`. -/
theorem aggregator_failure_policy_amended_witness :
    fetch_token_activity_data dbQueryFail failEnvOf "base" = Except.ok [] :=
  (aggregator_failure_policy_amended dbQueryFail failEnvOf "base").2.1
    rfl rfl

/-- C7: the handler always returns a value — either the token list or, when
the refresh raises, exactly the catch-all's `({"error": str(e)}, 500)` pair
with the cache untouched; no error escapes the handler. -/
theorem get_data_error_response (db : DbEnv) (envOf : String → RpcEnv)
    (cache : Cache) (now : Int) (chain : String) :
    ((∃ d, (get_data db envOf cache now chain).1 = Response.ok d) ∨
      (∃ m, (get_data db envOf cache now chain).1 = Response.err m 500)) ∧
    (∀ e, is_cache_valid cache chain now = false →
      fetch_token_activity_data db envOf chain = Except.error e →
      get_data db envOf cache now chain = (Response.err e 500, cache)) := by
  constructor
  · cases hv : is_cache_valid cache chain now
    · cases hf : fetch_token_activity_data db envOf chain with
      | ok d => exact Or.inl ⟨d, by simp [get_data, hv, hf]⟩
      | error m => exact Or.inr ⟨m, by simp [get_data, hv, hf]⟩
    · exact Or.inl ⟨cachedData cache chain, by simp [get_data, hv]⟩
  · intro e hv hf; simp [get_data, hv, hf]

/-- Witness for C7: a connection failure surfaces as the error pair. -/
theorem get_data_error_response_witness :
    get_data dbConnFail failEnvOf emptyCache 0 "ethereum" =
      (Response.err "connection refused" 500, emptyCache) :=
  (get_data_error_response dbConnFail failEnvOf emptyCache 0 "ethereum").2
    "connection refused" rfl rfl

/-- C9: a cache-miss `get_data` that returns normally stores exactly the
returned payload under the chain with the current time — in particular a
failed query execution stores the empty list — and every later request
within the TTL is served from that entry with no recomputation (the served
value does not depend on the database or RPC worlds of the later request). -/
theorem miss_stores_exactly_and_serves (db : DbEnv)
    (envOf : String → RpcEnv) (cache : Cache) (now : Int) (chain : String)
    (d : List EnrichedToken)
    (hv : is_cache_valid cache chain now = false)
    (hf : fetch_token_activity_data db envOf chain = Except.ok d) :
    get_data db envOf cache now chain =
      (Response.ok d, cacheInsert cache chain d now) ∧
    cacheInsert cache chain d now chain = some ⟨d, now⟩ ∧
    (db.connect = Except.ok () → db.queryOk = false → d = []) ∧
    (∀ db2 envOf2 now2, now2 - now < CACHE_EXPIRY_TIME →
      get_data db2 envOf2 (cacheInsert cache chain d now) now2 chain =
        (Response.ok d, cacheInsert cache chain d now)) := by
  refine ⟨by simp [get_data, hv, hf], by simp [cacheInsert], ?_, ?_⟩
  · intro hc hq
    simp [fetch_token_activity_data, hc, hq] at hf
    exact hf
  · intro db2 envOf2 now2 hlt
    have hv2 : is_cache_valid (cacheInsert cache chain d now) chain now2 =
        true := by
      simp [is_cache_valid, cacheInsert, hlt]
    simp [get_data, hv2, cachedData, cacheInsert]

/-- Witness for C9: a failed-query refresh caches `[]` at time 0 and the
entry is served unchanged just before the TTL expires, against a different
database world. -/
theorem miss_stores_exactly_and_serves_witness :
    get_data dbQueryFail failEnvOf emptyCache 0 "polygon" =
      (Response.ok [], cacheInsert emptyCache "polygon" [] 0) ∧
    ([] : List EnrichedToken) = [] ∧
    get_data dbNoTable failEnvOf (cacheInsert emptyCache "polygon" [] 0)
        21599 "polygon" =
      (Response.ok [], cacheInsert emptyCache "polygon" [] 0) := by
  have h := miss_stores_exactly_and_serves dbQueryFail failEnvOf emptyCache 0
    "polygon" [] rfl rfl
  exact ⟨h.1, h.2.2.1 rfl rfl, h.2.2.2 dbNoTable failEnvOf 21599 (by decide)⟩

end TokenPulse
